import Mathlib

/-!
# Verification of the output-formatting and pipeline contract of `trascrivi.py`

This file gives a shallow embedding of the program `trascrivi.py` (an
audio-transcription front end) and proves properties of its output
formatting and artifact-generation logic.

Modelling conventions:

* Python float values that hold amounts of seconds are modelled as exact
  rationals (`ℚ`); Python's `//`, `%` and `int(...)` on non-negative floats
  are floor-division, mod and truncation toward zero, embedded below as
  `pyFloorDiv`, `pyMod` and `pyInt`.
* Python strings are Lean `String`s; `str.strip()` is `pyStrip` (removing
  ASCII whitespace at both ends), `"sep".join(l)` is `pyJoin`, and decimal
  formatting `f"{n:0wd}"` is `fmt0 w n`.
* A file written by a sequence of `f.write(...)` calls is modelled as the
  concatenation (a `String`) of the written chunks.
* The transcription engine, filesystem and CUDA probe are external; they
  enter the embedding as an explicit environment (`Env`, `ProbeResult`).
  An exception raised by external code is an explicit `.exn`/`.error` value.
-/

/-- Python `a // b` on floats (for `b > 0`): the floor of the quotient,
as a float.  Models `seconds // 3600` etc. -/
def pyFloorDiv (a b : ℚ) : ℚ := ((⌊a / b⌋ : ℤ) : ℚ)

/-- Python `a % b` on floats (for `b > 0`): `a - b * (a // b)`.
Models `seconds % 3600`, `seconds % 60`, `seconds % 1`. -/
def pyMod (a b : ℚ) : ℚ := a - b * ((⌊a / b⌋ : ℤ) : ℚ)

/-- Python `int(x)`: truncation toward zero. -/
def pyInt (x : ℚ) : ℤ := if 0 ≤ x then ⌊x⌋ else -⌊-x⌋

/-- The character for decimal digit `d` (`0 ≤ d ≤ 9`). -/
def digitChar (d : ℕ) : Char := Char.ofNat (48 + d)

/-- Decimal digits of `n`, most significant first (fuel-driven so that it
reduces in the kernel; `natDigs` supplies sufficient fuel). -/
def natDigsAux : ℕ → ℕ → List Char
  | 0, _ => []
  | fuel+1, n => if n < 10 then [digitChar n] else natDigsAux fuel (n / 10) ++ [digitChar (n % 10)]

/-- Decimal digits of `n`, most significant first. -/
def natDigs (n : ℕ) : List Char := natDigsAux (n + 1) n

/-- Decimal representation of a natural number. -/
def natRepr (n : ℕ) : String := ⟨natDigs n⟩

/-- Decimal representation of an integer, models Python `str(n)` / `f"{n:d}"`. -/
def intRepr (n : ℤ) : String := if n < 0 then "-" ++ natRepr (-n).toNat else natRepr n.toNat

/-- Left-pad a string with `'0'` to width `w`.  Together with `intRepr`
this models Python's `f"{n:02d}"` / `f"{n:03d}"` for non-negative `n`. -/
def pad0 (w : ℕ) (s : String) : String := ⟨List.replicate (w - s.length) '0'⟩ ++ s

/-- Python `f"{n:0wd}"` for non-negative `n`. -/
def fmt0 (w : ℕ) (n : ℤ) : String := pad0 w (intRepr n)

/-- The four fields computed by `format_timestamp` (`trascrivi.py`
lines 27–30). -/
structure SrtFields where
  hours : ℤ
  minutes : ℤ
  secs : ℤ
  millis : ℤ
  deriving DecidableEq

/-- The field computations of `format_timestamp`:
`hours = int(seconds // 3600)`, `minutes = int((seconds % 3600) // 60)`,
`secs = int(seconds % 60)`, `millis = int((seconds % 1) * 1000)`. -/
def format_timestamp_fields (seconds : ℚ) : SrtFields :=
  { hours := pyInt (pyFloorDiv seconds 3600)
    minutes := pyInt (pyFloorDiv (pyMod seconds 3600) 60)
    secs := pyInt (pyMod seconds 60)
    millis := pyInt (pyMod seconds 1 * 1000) }

/-- `format_timestamp` (`trascrivi.py` lines 25–31): renders seconds as
`f"{hours:02d}:{minutes:02d}:{secs:02d},{millis:03d}"`. -/
def format_timestamp (seconds : ℚ) : String :=
  let t := format_timestamp_fields seconds
  fmt0 2 t.hours ++ ":" ++ fmt0 2 t.minutes ++ ":" ++ fmt0 2 t.secs ++ "," ++ fmt0 3 t.millis

/-- `format_timestamp_simple` (`trascrivi.py` lines 34–38):
`minutes = int(seconds // 60)`, `secs = int(seconds % 60)`, rendered as
`f"[{minutes:02d}:{secs:02d}]"`. -/
def format_timestamp_simple (seconds : ℚ) : String :=
  "[" ++ fmt0 2 (pyInt (pyFloorDiv seconds 60)) ++ ":" ++ fmt0 2 (pyInt (pyMod seconds 60)) ++ "]"

/-- The characters Python `str.strip()` removes (ASCII whitespace). -/
def pyWhitespace (c : Char) : Bool :=
  c = ' ' || c = '\t' || c = '\n' || c = '\r' || c = '\x0b' || c = '\x0c'

/-- Python `s.strip()`: remove leading and trailing whitespace. -/
def pyStrip (s : String) : String :=
  ⟨((s.data.dropWhile pyWhitespace).reverse.dropWhile pyWhitespace).reverse⟩

/-- Python `sep.join(l)`. -/
def pyJoin (sep : String) : List String → String
  | [] => ""
  | x :: xs => xs.foldl (fun acc y => acc ++ sep ++ y) x

/-- One segment dictionary, as built in `trascrivi.py` lines 140–147.
The Python key `"end"` is the field `stop` (`end` is a Lean keyword). -/
structure Segment where
  id : ℤ
  start : ℚ
  stop : ℚ
  text : String
  avg_logprob : ℚ
  no_speech_prob : ℚ
  deriving DecidableEq

/-- The timing line of a subtitle block:
`f"{format_timestamp(seg['start'])} --> {format_timestamp(seg['end'])}"`. -/
def srtTimingLine (seg : Segment) : String :=
  format_timestamp seg.start ++ " --> " ++ format_timestamp seg.stop

/-- The chunk written for the `i`-th (1-indexed) segment by the loop body of
`write_srt` (`trascrivi.py` lines 44–47): the index line, the timing line,
the stripped text and a blank separator line. -/
def srtBlock (i : ℕ) (seg : Segment) : String :=
  natRepr i ++ "\n" ++ srtTimingLine seg ++ "\n" ++ pyStrip seg.text ++ "\n\n"

/-- The `for i, seg in enumerate(segments, 1)` loop of `write_srt`,
started at index `i`. -/
def write_srt_loop (i : ℕ) : List Segment → String
  | [] => ""
  | seg :: rest => srtBlock i seg ++ write_srt_loop (i + 1) rest

/-- `write_srt` (`trascrivi.py` lines 41–47): the full content of the `.srt`
file written for `segments`. -/
def write_srt (segments : List Segment) : String := write_srt_loop 1 segments

/-- `write_txt` (`trascrivi.py` lines 50–54): the full content of the `.txt`
file, one `f"{seg['text'].strip()}\n"` write per segment. -/
def write_txt : List Segment → String
  | [] => ""
  | seg :: rest => pyStrip seg.text ++ "\n" ++ write_txt rest

/-- Split a character sequence at each `'\n'`, like Python
`content.split("\n")`: the lines of a file content (a content that ends in
a newline yields a final empty entry). -/
def splitLines : List Char → List (List Char)
  | [] => [[]]
  | c :: cs =>
    if c = '\n' then [] :: splitLines cs
    else
      match splitLines cs with
      | [] => [[c]]
      | l :: ls => (c :: l) :: ls

/-- Does `pat` occur at the start of `l`? (helper for `strContains`). -/
def startsWithChars : List Char → List Char → Bool
  | [], _ => true
  | _ :: _, [] => false
  | p :: ps, c :: cs => p == c && startsWithChars ps cs

/-- Does `pat` occur contiguously inside `l`? (helper for `strContains`). -/
def containsChars (l pat : List Char) : Bool :=
  match l with
  | [] => startsWithChars pat []
  | _ :: cs => startsWithChars pat l || containsChars cs pat

/-- Python `pat in s` on strings: `pat` occurs as a substring of `s`. -/
def strContains (s pat : String) : Bool := containsChars s.data pat.data

/-- Outcome of the probe `ctranslate2.get_supported_compute_types("cuda")`
inside `check_cuda_available`: either the returned list of compute types,
or an exception raised during the probe (import failure, missing driver, …). -/
inductive ProbeResult where
  | ok (types : List String)
  | exn (msg : String)
  deriving DecidableEq

/-- `check_cuda_available` (`trascrivi.py` lines 15–22): returns
`len(types) > 0 and "float16" in types`; the `except Exception` branch
returns `False`. -/
def check_cuda_available : ProbeResult → Bool
  | .ok types => decide (0 < types.length) && types.contains "float16"
  | .exn _ => false

/-- The run-level metadata returned by `model.transcribe` (`info`). -/
structure TranscribeInfo where
  language : String
  language_probability : ℚ
  duration : ℚ
  deriving DecidableEq

/-- The external world as observed by one run of `trascrivi`:
the resolved input path and whether it exists, the CUDA probe outcome, the
availability of `faster_whisper`, the outcomes of model construction and of
`model.transcribe` (an `.error` is an exception raised by the engine), and
the wall-clock values read during the run. -/
structure Env where
  input_path : String
  path_exists : Bool
  probe : ProbeResult
  faster_whisper_installed : Bool
  model_load : Except String Unit
  transcribe_result : Except String (List Segment × TranscribeInfo)
  now_iso : String
  processing_seconds : ℚ

/-- The `"parametri"` block of the JSON document (`trascrivi.py` 173–180). -/
structure Parametri where
  modello : String
  device : String
  compute_type : String
  beam_size : ℤ
  vad_filter : Bool
  lingua_impostata : String
  deriving DecidableEq

/-- The `"info_audio"` block (`trascrivi.py` 181–185). -/
structure InfoAudio where
  lingua_rilevata : String
  probabilita_lingua : ℚ
  durata_totale_secondi : ℚ
  deriving DecidableEq

/-- The `"statistiche"` block (`trascrivi.py` 186–189). -/
structure Statistiche where
  numero_segmenti : ℕ
  tempo_elaborazione_secondi : ℚ
  deriving DecidableEq

/-- The full JSON metadata document `json_data` (`trascrivi.py` 170–192). -/
structure JsonData where
  file_sorgente : String
  data_trascrizione : String
  parametri : Parametri
  info_audio : InfoAudio
  statistiche : Statistiche
  segmenti : List Segment
  testo_completo : String
  deriving DecidableEq

/-- The three artifact files a successful run writes (`trascrivi.py`
195–197): the contents of `<stem>_trascrizione.txt`, `.srt` and `.json`. -/
structure Artifacts where
  txt : String
  srt : String
  json : JsonData
  deriving DecidableEq

/-- `trascrivi` (`trascrivi.py` lines 63–203).  A `sys.exit(1)` is the value
`.error (1, msgs)` where `msgs` are the error lines printed before exiting;
no artifact is written on that path.  A completed run is `.ok` with the
three artifact contents.  (Progress printing and the non-fatal extension
warning only touch stdout and are not modelled.) -/
def trascrivi (env : Env) (beam_size : ℤ) : Except (ℕ × List String) Artifacts :=
  if env.path_exists = false then
    .error (1, ["Errore: File non trovato: " ++ env.input_path])
  else
    let use_cuda := check_cuda_available env.probe
    let device := if use_cuda then "cuda" else "cpu"
    let compute_type := if use_cuda then "float16" else "int8"
    if env.faster_whisper_installed = false then
      .error (1, ["Errore: faster-whisper non installato. Esegui: pip install faster-whisper"])
    else
      match env.model_load with
      | .error e =>
        .error (1, ["Errore nel caricamento del modello: " ++ e] ++
          (if (strContains e "CUDA" || strContains e "cuda") then
            ["Problema con CUDA. Verificare driver NVIDIA e installazione CUDA."] else []))
      | .ok _ =>
        match env.transcribe_result with
        | .error e => .error (1, ["Errore durante la trascrizione: " ++ e])
        | .ok (segments_list, info) =>
          let full_text := segments_list.map (fun seg => pyStrip seg.text)
          let json_data : JsonData :=
            { file_sorgente := env.input_path
              data_trascrizione := env.now_iso
              parametri :=
                { modello := "large-v3"
                  device := device
                  compute_type := compute_type
                  beam_size := beam_size
                  vad_filter := true
                  lingua_impostata := "it" }
              info_audio :=
                { lingua_rilevata := info.language
                  probabilita_lingua := info.language_probability
                  durata_totale_secondi := info.duration }
              statistiche :=
                { numero_segmenti := segments_list.length
                  tempo_elaborazione_secondi := env.processing_seconds }
              segmenti := segments_list
              testo_completo := pyJoin "\n" full_text }
          .ok { txt := write_txt segments_list
                srt := write_srt segments_list
                json := json_data }

/-! ## Arithmetic facts about the Python primitives -/

lemma pyMod_def (a b : ℚ) : pyMod a b = a - b * ((⌊a / b⌋ : ℤ) : ℚ) := rfl

lemma pyMod_nonneg (a : ℚ) {b : ℚ} (hb : 0 < b) : 0 ≤ pyMod a b := by
  have h1 : ((⌊a / b⌋ : ℤ) : ℚ) ≤ a / b := Int.floor_le _
  have h2 : b * ((⌊a / b⌋ : ℤ) : ℚ) ≤ b * (a / b) := mul_le_mul_of_nonneg_left h1 hb.le
  have h3 : b * (a / b) = a := by field_simp
  rw [pyMod_def]; linarith

lemma pyMod_lt (a : ℚ) {b : ℚ} (hb : 0 < b) : pyMod a b < b := by
  have h1 : a / b < ((⌊a / b⌋ : ℤ) : ℚ) + 1 := Int.lt_floor_add_one _
  have h2 : b * (a / b) < b * (((⌊a / b⌋ : ℤ) : ℚ) + 1) := (mul_lt_mul_left hb).2 h1
  have h3 : b * (a / b) = a := by field_simp
  have h4 : b * (((⌊a / b⌋ : ℤ) : ℚ) + 1) = b * ((⌊a / b⌋ : ℤ) : ℚ) + b := by ring
  rw [pyMod_def]; linarith

lemma pyMod_shift (a : ℚ) {b : ℚ} (hb : b ≠ 0) (n : ℤ) :
    pyMod (a + b * (n : ℚ)) b = pyMod a b := by
  have h : (a + b * (n : ℚ)) / b = a / b + (n : ℚ) := by field_simp; ring
  rw [pyMod_def, pyMod_def, h]
  rw [show a / b + (n : ℚ) = a / b + ((n : ℤ) : ℚ) from rfl, Int.floor_add_int]
  push_cast
  ring

lemma pyInt_eq_floor {x : ℚ} (h : 0 ≤ x) : pyInt x = ⌊x⌋ := if_pos h

lemma pyInt_pyFloorDiv {a b : ℚ} (ha : 0 ≤ a) (hb : 0 < b) :
    pyInt (pyFloorDiv a b) = ⌊a / b⌋ := by
  have h0 : (0 : ℤ) ≤ ⌊a / b⌋ := Int.floor_nonneg.2 (div_nonneg ha hb.le)
  have h0q : (0 : ℚ) ≤ ((⌊a / b⌋ : ℤ) : ℚ) := by exact_mod_cast h0
  unfold pyFloorDiv
  rw [pyInt_eq_floor h0q, Int.floor_intCast]

lemma pyMod_one (s : ℚ) : pyMod s 1 = s - ((⌊s⌋ : ℤ) : ℚ) := by
  rw [pyMod_def]
  norm_num

/-- The inner mod collapses: `(s % 3600) % 60 = s % 60`. -/
lemma pyMod_pyMod_sixty (s : ℚ) : pyMod (pyMod s 3600) 60 = pyMod s 60 := by
  have h : pyMod s 3600 = s + 60 * ((-60 * ⌊s / 3600⌋ : ℤ) : ℚ) := by
    rw [pyMod_def]; push_cast; ring
  rw [h, pyMod_shift s (by norm_num) (-60 * ⌊s / 3600⌋)]

/-- The fractional part survives taking `s % 60`: `(s % 60) % 1 = s % 1`. -/
lemma pyMod_sixty_one (s : ℚ) : pyMod (pyMod s 60) 1 = pyMod s 1 := by
  have h : pyMod s 60 = s + 1 * ((-60 * ⌊s / 60⌋ : ℤ) : ℚ) := by
    rw [pyMod_def]; push_cast; ring
  rw [h, pyMod_shift s (by norm_num) (-60 * ⌊s / 60⌋)]

/-- Splitting `s` into hours, minutes and the remainder `s % 60`. -/
lemma seconds_decomp (s : ℚ) :
    s = 3600 * ((⌊s / 3600⌋ : ℤ) : ℚ) + 60 * ((⌊pyMod s 3600 / 60⌋ : ℤ) : ℚ) + pyMod s 60 := by
  have h1 : pyMod s 3600 = s - 3600 * ((⌊s / 3600⌋ : ℤ) : ℚ) := pyMod_def s 3600
  have h2 : pyMod (pyMod s 3600) 60
      = pyMod s 3600 - 60 * ((⌊pyMod s 3600 / 60⌋ : ℤ) : ℚ) := pyMod_def _ 60
  have h3 := pyMod_pyMod_sixty s
  linarith [h1, h2, h3]

/-- Splitting the remainder into whole seconds and the fractional part. -/
lemma remainder_decomp (s : ℚ) :
    pyMod s 60 = ((⌊pyMod s 60⌋ : ℤ) : ℚ) + pyMod s 1 := by
  have h := pyMod_one (pyMod s 60)
  rw [pyMod_sixty_one s] at h
  linarith

/-- The four fields of `format_timestamp`, written with mathematical floors. -/
lemma format_timestamp_fields_spec (s : ℚ) (hs : 0 ≤ s) :
    (format_timestamp_fields s).hours = ⌊s / 3600⌋ ∧
    (format_timestamp_fields s).minutes = ⌊pyMod s 3600 / 60⌋ ∧
    (format_timestamp_fields s).secs = ⌊pyMod s 60⌋ ∧
    (format_timestamp_fields s).millis = ⌊pyMod s 1 * 1000⌋ := by
  refine ⟨pyInt_pyFloorDiv hs (by norm_num), ?_, ?_, ?_⟩
  · exact pyInt_pyFloorDiv (pyMod_nonneg s (by norm_num)) (by norm_num)
  · exact pyInt_eq_floor (pyMod_nonneg s (by norm_num))
  · exact pyInt_eq_floor (mul_nonneg (pyMod_nonneg s (by norm_num)) (by norm_num))

/-! ## Facts about decimal formatting -/

lemma natDigs_len_le_two : ∀ n < 100, (natDigs n).length ≤ 2 := by decide

set_option maxRecDepth 4000 in
lemma natDigs_len_le_three : ∀ n < 1000, (natDigs n).length ≤ 3 := by decide

lemma string_mk_length (l : List Char) : (String.mk l).length = l.length := rfl

lemma pad0_length_of_le {w : ℕ} {s : String} (h : s.length ≤ w) : (pad0 w s).length = w := by
  rw [pad0, String.length_append, string_mk_length, List.length_replicate]
  omega

lemma pad0_length_ge (w : ℕ) (s : String) : w ≤ (pad0 w s).length := by
  rw [pad0, String.length_append, string_mk_length, List.length_replicate]
  omega

lemma intRepr_of_nonneg {n : ℤ} (h : 0 ≤ n) : intRepr n = natRepr n.toNat :=
  if_neg (by omega)

lemma fmt0_two_length {n : ℤ} (h0 : 0 ≤ n) (h99 : n ≤ 99) : (fmt0 2 n).length = 2 := by
  rw [fmt0, intRepr_of_nonneg h0]
  exact pad0_length_of_le (natDigs_len_le_two n.toNat (by omega))

lemma fmt0_three_length {n : ℤ} (h0 : 0 ≤ n) (h : n ≤ 999) : (fmt0 3 n).length = 3 := by
  rw [fmt0, intRepr_of_nonneg h0]
  exact pad0_length_of_le (natDigs_len_le_three n.toNat (by omega))

lemma fmt0_length_ge (w : ℕ) (n : ℤ) : w ≤ (fmt0 w n).length := pad0_length_ge _ _

lemma digitChar_ne_newline {d : ℕ} (h : d < 10) : digitChar d ≠ '\n' := by
  interval_cases d <;> decide

lemma natDigsAux_mem_digit {fuel n : ℕ} {c : Char} (hc : c ∈ natDigsAux fuel n) :
    ∃ d, d < 10 ∧ c = digitChar d := by
  induction fuel generalizing n with
  | zero => simp [natDigsAux] at hc
  | succ fuel ih =>
    rw [natDigsAux] at hc
    by_cases h : n < 10
    · rw [if_pos h] at hc
      simp only [List.mem_singleton] at hc
      exact ⟨n, h, hc⟩
    · rw [if_neg h] at hc
      rcases List.mem_append.1 hc with h1 | h2
      · exact ih h1
      · simp only [List.mem_singleton] at h2
        exact ⟨n % 10, Nat.mod_lt _ (by norm_num), h2⟩

lemma natDigs_no_newline (n : ℕ) : '\n' ∉ natDigs n := fun hmem => by
  obtain ⟨d, hd, he⟩ := natDigsAux_mem_digit hmem
  exact digitChar_ne_newline hd he.symm

lemma natRepr_no_newline (n : ℕ) : '\n' ∉ (natRepr n).data := natDigs_no_newline n

lemma intRepr_no_newline (n : ℤ) : '\n' ∉ (intRepr n).data := by
  rw [intRepr]
  split
  · rw [String.data_append]
    intro hmem
    rcases List.mem_append.1 hmem with h1 | h2
    · simp only [List.mem_singleton] at h1
      exact absurd h1 (by decide)
    · exact natDigs_no_newline _ h2
  · exact natDigs_no_newline _

lemma fmt0_no_newline (w : ℕ) (n : ℤ) : '\n' ∉ (fmt0 w n).data := by
  rw [fmt0, pad0, String.data_append]
  intro hmem
  rcases List.mem_append.1 hmem with h1 | h2
  · have := List.eq_of_mem_replicate h1
    exact absurd this (by decide)
  · exact intRepr_no_newline n h2

lemma no_newline_append {a b : String} (ha : '\n' ∉ a.data) (hb : '\n' ∉ b.data) :
    '\n' ∉ (a ++ b).data := by
  rw [String.data_append]
  intro h
  rcases List.mem_append.1 h with h | h
  · exact ha h
  · exact hb h

lemma format_timestamp_no_newline (s : ℚ) : '\n' ∉ (format_timestamp s).data := by
  show '\n' ∉ (fmt0 2 (format_timestamp_fields s).hours ++ ":" ++
    fmt0 2 (format_timestamp_fields s).minutes ++ ":" ++
    fmt0 2 (format_timestamp_fields s).secs ++ "," ++
    fmt0 3 (format_timestamp_fields s).millis).data
  exact no_newline_append (no_newline_append (no_newline_append (no_newline_append
    (no_newline_append (no_newline_append (fmt0_no_newline _ _) (by decide))
      (fmt0_no_newline _ _)) (by decide)) (fmt0_no_newline _ _)) (by decide))
    (fmt0_no_newline _ _)

lemma srtTimingLine_no_newline (seg : Segment) : '\n' ∉ (srtTimingLine seg).data := by
  rw [srtTimingLine]
  exact no_newline_append (no_newline_append (format_timestamp_no_newline _) (by decide))
    (format_timestamp_no_newline _)

/-! ## Line structure of the written files -/

lemma splitLines_ne_nil : ∀ l : List Char, splitLines l ≠ []
  | [] => by simp [splitLines]
  | c :: cs => by
    rw [splitLines]
    by_cases h : c = '\n'
    · simp [h]
    · rw [if_neg h]
      cases hs : splitLines cs <;> simp

/-- Peeling one newline-free line off the front of a content. -/
lemma splitLines_append (l rest : List Char) (hl : '\n' ∉ l) :
    splitLines (l ++ '\n' :: rest) = l :: splitLines rest := by
  induction l with
  | nil => simp [splitLines]
  | cons c cs ih =>
    have hc : c ≠ '\n' := fun he => hl (he ▸ List.mem_cons_self c cs)
    have hcs : '\n' ∉ cs := fun he => hl (List.mem_cons_of_mem _ he)
    rw [List.cons_append, splitLines, if_neg hc, ih hcs]

lemma data_newline : ("\n" : String).data = ['\n'] := rfl

/-- The text-file content, seen at the character level: each segment
contributes its stripped text and a newline. -/
lemma write_txt_data (seg : Segment) (rest : List Segment) :
    (write_txt (seg :: rest)).data
      = (pyStrip seg.text).data ++ '\n' :: (write_txt rest).data := by
  show (pyStrip seg.text ++ "\n" ++ write_txt rest).data = _
  rw [String.data_append, String.data_append, data_newline, List.append_assoc]
  rfl

/-- The lines that the claim expects `write_srt` to emit for each segment,
starting at index `i`: the index line, the timing line, the stripped text
line and a blank line, four per segment. -/
def srtExpectedLines (i : ℕ) : List Segment → List (List Char)
  | [] => []
  | seg :: rest =>
    (natRepr i).data :: (srtTimingLine seg).data :: (pyStrip seg.text).data
      :: [] :: srtExpectedLines (i + 1) rest

/-- The subtitle-file content at the character level. -/
lemma write_srt_loop_data (i : ℕ) (seg : Segment) (rest : List Segment) :
    (write_srt_loop i (seg :: rest)).data
      = (natRepr i).data ++ '\n' :: ((srtTimingLine seg).data ++ '\n' ::
          ((pyStrip seg.text).data ++ '\n' :: '\n' ::
            (write_srt_loop (i + 1) rest).data)) := by
  show (srtBlock i seg ++ write_srt_loop (i + 1) rest).data = _
  rw [srtBlock]
  simp only [String.data_append, data_newline]
  have h2 : ("\n\n" : String).data = ['\n', '\n'] := rfl
  simp only [h2, List.append_assoc, List.cons_append, List.nil_append]

lemma write_srt_loop_lines (segs : List Segment) (i : ℕ)
    (h : ∀ seg ∈ segs, '\n' ∉ (pyStrip seg.text).data) :
    splitLines (write_srt_loop i segs).data = srtExpectedLines i segs ++ [[]] := by
  induction segs generalizing i with
  | nil => simp [write_srt_loop, srtExpectedLines, splitLines]
  | cons seg rest ih =>
    have h1 : '\n' ∉ (pyStrip seg.text).data := h seg (List.mem_cons_self _ _)
    have h2 : ∀ g ∈ rest, '\n' ∉ (pyStrip g.text).data :=
      fun g hg => h g (List.mem_cons_of_mem _ hg)
    rw [write_srt_loop_data, splitLines_append _ _ (natRepr_no_newline i),
      splitLines_append _ _ (srtTimingLine_no_newline seg),
      splitLines_append _ _ h1]
    have hnl : splitLines ('\n' :: (write_srt_loop (i + 1) rest).data)
        = [] :: splitLines (write_srt_loop (i + 1) rest).data := by
      rw [splitLines]; simp
    rw [hnl, ih _ h2, srtExpectedLines]
    simp

/-! ## Claim theorems: timestamp formatting (C1, C2, C3) -/

/-- Rounding to the nearest integer, as asserted by the claim for the
millisecond field.  (`0.6` is not a tie, so every rounding convention —
including Python's banker's rounding — agrees with `⌊x + 1/2⌋` there.) -/
def roundNearest (x : ℚ) : ℤ := ⌊x + 1/2⌋

/-- C1, counterexample: at `s = 0.0006` the code computes the millisecond
field as `int((s % 1) * 1000) = int(0.6) = 0` (truncation), while the
claimed `round((s % 1) * 1000) = round(0.6) = 1`.  The millisecond field is
obtained by truncation, not rounding. -/
theorem format_timestamp_millis_truncation_cex :
    (format_timestamp_fields (6/10000)).millis = 0 ∧
    pyMod (6/10000) 1 * 1000 = 3/5 ∧
    roundNearest (pyMod (6/10000) 1 * 1000) = 1 := by
  with_unfolding_all decide

/-- C1, amended: for every non-negative `s`, the four fields of
`format_timestamp(s)` are `hours = ⌊s/3600⌋`,
`minutes = ⌊(s mod 3600)/60⌋`, `secs = ⌊s mod 60⌋` and
`millis = ⌊(s mod 1) * 1000⌋`; the millisecond field is obtained by
truncation (flooring), not rounding. -/
theorem format_timestamp_fields_are_floors (s : ℚ) (hs : 0 ≤ s) :
    (format_timestamp_fields s).hours = ⌊s / 3600⌋ ∧
    (format_timestamp_fields s).minutes = ⌊(s - 3600 * ((⌊s / 3600⌋ : ℤ) : ℚ)) / 60⌋ ∧
    (format_timestamp_fields s).secs = ⌊s - 60 * ((⌊s / 60⌋ : ℤ) : ℚ)⌋ ∧
    (format_timestamp_fields s).millis = ⌊(s - ((⌊s⌋ : ℤ) : ℚ)) * 1000⌋ := by
  obtain ⟨h1, h2, h3, h4⟩ := format_timestamp_fields_spec s hs
  refine ⟨h1, ?_, ?_, ?_⟩
  · rw [h2]; rfl
  · rw [h3]; rfl
  · rw [h4, pyMod_one]

/-- Witness for `format_timestamp_fields_are_floors` at `s = 3661.5`. -/
theorem format_timestamp_fields_are_floors_witness :
    0 ≤ (7323/2 : ℚ) ∧
    ((format_timestamp_fields (7323/2)).hours = ⌊(7323/2 : ℚ) / 3600⌋ ∧
    (format_timestamp_fields (7323/2)).minutes
      = ⌊((7323/2 : ℚ) - 3600 * ((⌊(7323/2 : ℚ) / 3600⌋ : ℤ) : ℚ)) / 60⌋ ∧
    (format_timestamp_fields (7323/2)).secs
      = ⌊(7323/2 : ℚ) - 60 * ((⌊(7323/2 : ℚ) / 60⌋ : ℤ) : ℚ)⌋ ∧
    (format_timestamp_fields (7323/2)).millis
      = ⌊((7323/2 : ℚ) - ((⌊(7323/2 : ℚ)⌋ : ℤ) : ℚ)) * 1000⌋) :=
  ⟨by norm_num, format_timestamp_fields_are_floors (7323/2) (by norm_num)⟩

/-- The time denoted by an `HH:MM:SS,mmm` timestamp, in seconds:
`HH*3600 + MM*60 + SS + mmm/1000` (the claim's decoding). -/
def srtDecode (t : SrtFields) : ℚ :=
  3600 * (t.hours : ℚ) + 60 * (t.minutes : ℚ) + (t.secs : ℚ) + (t.millis : ℚ) / 1000

/-- C2: for every non-negative `s`, `format_timestamp s` is the
concatenation `HH:MM:SS,mmm` of its four zero-padded fields, the minute and
second fields are two digits in 00–59, the millisecond field three digits
in 000–999, and the decoded value `HH*3600 + MM*60 + SS + mmm/1000`
under-approximates `s` by strictly less than one millisecond. -/
theorem format_timestamp_grammar (s : ℚ) (hs : 0 ≤ s) :
    format_timestamp s =
      fmt0 2 (format_timestamp_fields s).hours ++ ":" ++
      fmt0 2 (format_timestamp_fields s).minutes ++ ":" ++
      fmt0 2 (format_timestamp_fields s).secs ++ "," ++
      fmt0 3 (format_timestamp_fields s).millis ∧
    0 ≤ (format_timestamp_fields s).hours ∧
    (fmt0 2 (format_timestamp_fields s).minutes).length = 2 ∧
    0 ≤ (format_timestamp_fields s).minutes ∧ (format_timestamp_fields s).minutes ≤ 59 ∧
    (fmt0 2 (format_timestamp_fields s).secs).length = 2 ∧
    0 ≤ (format_timestamp_fields s).secs ∧ (format_timestamp_fields s).secs ≤ 59 ∧
    (fmt0 3 (format_timestamp_fields s).millis).length = 3 ∧
    0 ≤ (format_timestamp_fields s).millis ∧ (format_timestamp_fields s).millis ≤ 999 ∧
    0 ≤ s - srtDecode (format_timestamp_fields s) ∧
    s - srtDecode (format_timestamp_fields s) < 1/1000 := by
  obtain ⟨e1, e2, e3, e4⟩ := format_timestamp_fields_spec s hs
  have hr0 : 0 ≤ pyMod s 3600 := pyMod_nonneg s (by norm_num)
  have hr1 : pyMod s 3600 < 3600 := pyMod_lt s (by norm_num)
  have hq0 : 0 ≤ pyMod s 60 := pyMod_nonneg s (by norm_num)
  have hq1 : pyMod s 60 < 60 := pyMod_lt s (by norm_num)
  have hf0 : 0 ≤ pyMod s 1 := pyMod_nonneg s (by norm_num)
  have hf1 : pyMod s 1 < 1 := pyMod_lt s (by norm_num)
  have hH : 0 ≤ (format_timestamp_fields s).hours := by
    rw [e1]; exact Int.floor_nonneg.2 (div_nonneg hs (by norm_num))
  have hM0 : 0 ≤ (format_timestamp_fields s).minutes := by
    rw [e2]; exact Int.floor_nonneg.2 (div_nonneg hr0 (by norm_num))
  have hM1 : (format_timestamp_fields s).minutes ≤ 59 := by
    rw [e2]
    have h60 : pyMod s 3600 / 60 < ((60 : ℤ) : ℚ) := by
      rw [div_lt_iff₀ (by norm_num : (0:ℚ) < 60)]
      push_cast
      linarith
    have := Int.floor_lt.2 h60
    omega
  have hS0 : 0 ≤ (format_timestamp_fields s).secs := by
    rw [e3]; exact Int.floor_nonneg.2 hq0
  have hS1 : (format_timestamp_fields s).secs ≤ 59 := by
    rw [e3]
    have h60 : pyMod s 60 < ((60 : ℤ) : ℚ) := by push_cast; linarith
    have := Int.floor_lt.2 h60
    omega
  have hms0 : 0 ≤ (format_timestamp_fields s).millis := by
    rw [e4]; exact Int.floor_nonneg.2 (by positivity)
  have hms1 : (format_timestamp_fields s).millis ≤ 999 := by
    rw [e4]
    have h1000 : pyMod s 1 * 1000 < ((1000 : ℤ) : ℚ) := by push_cast; linarith
    have := Int.floor_lt.2 h1000
    omega
  have hdec : srtDecode (format_timestamp_fields s)
      = 3600 * ((⌊s / 3600⌋ : ℤ) : ℚ) + 60 * ((⌊pyMod s 3600 / 60⌋ : ℤ) : ℚ)
        + ((⌊pyMod s 60⌋ : ℤ) : ℚ) + ((⌊pyMod s 1 * 1000⌋ : ℤ) : ℚ) / 1000 := by
    rw [srtDecode, e1, e2, e3, e4]
  have hsplit := seconds_decomp s
  have hrem := remainder_decomp s
  have g1 : ((⌊pyMod s 1 * 1000⌋ : ℤ) : ℚ) ≤ pyMod s 1 * 1000 := Int.floor_le _
  have g2 : pyMod s 1 * 1000 < ((⌊pyMod s 1 * 1000⌋ : ℤ) : ℚ) + 1 := Int.lt_floor_add_one _
  refine ⟨rfl, hH, fmt0_two_length hM0 (hM1.trans (by norm_num)), hM0, hM1, fmt0_two_length hS0 (hS1.trans (by norm_num)), hS0, hS1,
    fmt0_three_length hms0 hms1, hms0, hms1, ?_, ?_⟩
  · linarith
  · linarith

/-- Witness for `format_timestamp_grammar` at `s = 65.5`. -/
theorem format_timestamp_grammar_witness :
    0 ≤ (131/2 : ℚ) ∧
    (format_timestamp (131/2) =
      fmt0 2 (format_timestamp_fields (131/2)).hours ++ ":" ++
      fmt0 2 (format_timestamp_fields (131/2)).minutes ++ ":" ++
      fmt0 2 (format_timestamp_fields (131/2)).secs ++ "," ++
      fmt0 3 (format_timestamp_fields (131/2)).millis ∧
    0 ≤ (format_timestamp_fields (131/2)).hours ∧
    (fmt0 2 (format_timestamp_fields (131/2)).minutes).length = 2 ∧
    0 ≤ (format_timestamp_fields (131/2)).minutes ∧
      (format_timestamp_fields (131/2)).minutes ≤ 59 ∧
    (fmt0 2 (format_timestamp_fields (131/2)).secs).length = 2 ∧
    0 ≤ (format_timestamp_fields (131/2)).secs ∧
      (format_timestamp_fields (131/2)).secs ≤ 59 ∧
    (fmt0 3 (format_timestamp_fields (131/2)).millis).length = 3 ∧
    0 ≤ (format_timestamp_fields (131/2)).millis ∧
      (format_timestamp_fields (131/2)).millis ≤ 999 ∧
    0 ≤ (131/2 : ℚ) - srtDecode (format_timestamp_fields (131/2)) ∧
    (131/2 : ℚ) - srtDecode (format_timestamp_fields (131/2)) < 1/1000) :=
  ⟨by norm_num, format_timestamp_grammar (131/2) (by norm_num)⟩

/-- C3: for every non-negative `s`, `format_timestamp_simple s` is
`"[MM:SS]"` with `MM = ⌊s/60⌋` (zero-padded to at least two digits, with no
hour component) and `SS = ⌊s mod 60⌋ ∈ [0, 59]` two zero-padded digits, and
`MM*60 + SS = ⌊s⌋`. -/
theorem format_timestamp_simple_spec (s : ℚ) (hs : 0 ≤ s) :
    format_timestamp_simple s =
      "[" ++ fmt0 2 ⌊s / 60⌋ ++ ":" ++ fmt0 2 ⌊pyMod s 60⌋ ++ "]" ∧
    ⌊s / 60⌋ * 60 + ⌊pyMod s 60⌋ = ⌊s⌋ ∧
    0 ≤ ⌊s / 60⌋ ∧ 0 ≤ ⌊pyMod s 60⌋ ∧ ⌊pyMod s 60⌋ ≤ 59 ∧
    2 ≤ (fmt0 2 ⌊s / 60⌋).length ∧ (fmt0 2 ⌊pyMod s 60⌋).length = 2 := by
  have hq0 : 0 ≤ pyMod s 60 := pyMod_nonneg s (by norm_num)
  have hq1 : pyMod s 60 < 60 := pyMod_lt s (by norm_num)
  have hM0 : 0 ≤ ⌊s / 60⌋ := Int.floor_nonneg.2 (div_nonneg hs (by norm_num))
  have hS0 : 0 ≤ ⌊pyMod s 60⌋ := Int.floor_nonneg.2 hq0
  have hS1 : ⌊pyMod s 60⌋ ≤ 59 := by
    have h60 : pyMod s 60 < ((60 : ℤ) : ℚ) := by push_cast; linarith
    have := Int.floor_lt.2 h60
    omega
  have key : ⌊pyMod s 60⌋ = ⌊s⌋ - 60 * ⌊s / 60⌋ := by
    have h : pyMod s 60 = s - ((60 * ⌊s / 60⌋ : ℤ) : ℚ) := by
      rw [pyMod_def]; push_cast; ring
    rw [h, Int.floor_sub_int]
  refine ⟨?_, by omega, hM0, hS0, hS1, fmt0_length_ge 2 _, fmt0_two_length hS0 (hS1.trans (by norm_num))⟩
  rw [format_timestamp_simple, pyInt_pyFloorDiv hs (by norm_num : (0:ℚ) < 60),
    pyInt_eq_floor hq0]

/-- Witness for `format_timestamp_simple_spec` at `s = 65.5`. -/
theorem format_timestamp_simple_spec_witness :
    0 ≤ (131/2 : ℚ) ∧
    (format_timestamp_simple (131/2) =
      "[" ++ fmt0 2 ⌊(131/2 : ℚ) / 60⌋ ++ ":" ++ fmt0 2 ⌊pyMod (131/2) 60⌋ ++ "]" ∧
    ⌊(131/2 : ℚ) / 60⌋ * 60 + ⌊pyMod (131/2) 60⌋ = ⌊(131/2 : ℚ)⌋ ∧
    0 ≤ ⌊(131/2 : ℚ) / 60⌋ ∧ 0 ≤ ⌊pyMod (131/2) 60⌋ ∧ ⌊pyMod (131/2) 60⌋ ≤ 59 ∧
    2 ≤ (fmt0 2 ⌊(131/2 : ℚ) / 60⌋).length ∧ (fmt0 2 ⌊pyMod (131/2) 60⌋).length = 2) :=
  ⟨by norm_num, format_timestamp_simple_spec (131/2) (by norm_num)⟩

/-! ## Claim theorems: artifact writers (C4, C5) -/

/-- A segment whose recognized text contains an internal newline (the text
field of a segment is an arbitrary string; nothing in the program forbids
newlines inside it, and `strip()` only removes them at the ends). -/
def newlineSeg : Segment :=
  { id := 0, start := 0, stop := 1, text := "a\nb", avg_logprob := 0, no_speech_prob := 0 }

/-- Four lines per segment, as the claim expects. -/
lemma srtExpectedLines_length (i : ℕ) (segs : List Segment) :
    (srtExpectedLines i segs).length = 4 * segs.length := by
  induction segs generalizing i with
  | nil => rfl
  | cons seg rest ih =>
    rw [srtExpectedLines, List.length_cons, List.length_cons, List.length_cons,
      List.length_cons, ih, List.length_cons]
    ring

/-- C4, counterexample: for the single-segment list whose text is `"a\nb"`,
the `.srt` file contains six lines (index, timing, `a`, `b`, blank, final
empty rest), not four lines per segment: the claim fails for segment texts
that contain internal newlines. -/
theorem write_srt_four_lines_cex :
    (splitLines (write_srt [newlineSeg]).data).length = 6 ∧
    splitLines (write_srt [newlineSeg]).data ≠ srtExpectedLines 1 [newlineSeg] ++ [[]] := by
  with_unfolding_all decide

/-- C4, amended: for every segment list in which no segment's stripped text
contains a newline character, `write_srt` emits exactly four lines per
segment (1-indexed, in input order): the index, the timing line
`format_timestamp(start) --> format_timestamp(end)`, the stripped text and
a blank separator; the file contains nothing else (the final `[[]]` is the
empty rest after the last block's newline). -/
theorem write_srt_lines (segs : List Segment)
    (h : ∀ seg ∈ segs, '\n' ∉ (pyStrip seg.text).data) :
    splitLines (write_srt segs).data = srtExpectedLines 1 segs ++ [[]] ∧
    (splitLines (write_srt segs).data).length = 4 * segs.length + 1 := by
  have h1 : splitLines (write_srt segs).data = srtExpectedLines 1 segs ++ [[]] :=
    write_srt_loop_lines segs 1 h
  refine ⟨h1, ?_⟩
  rw [h1, List.length_append, srtExpectedLines_length]
  rfl

/-- A plain one-segment and a plain two-segment list used as witnesses. -/
def segCiao : Segment := ⟨0, 0, 1, " ciao ", 0, 0⟩

def segMondo : Segment := ⟨1, 1, 2, "mondo", 0, 0⟩

/-- Witness for `write_srt_lines` on a one-segment list. -/
theorem write_srt_lines_witness :
    (∀ seg ∈ [segCiao], '\n' ∉ (pyStrip seg.text).data) ∧
    (splitLines (write_srt [segCiao]).data = srtExpectedLines 1 [segCiao] ++ [[]] ∧
    (splitLines (write_srt [segCiao]).data).length = 4 * [segCiao].length + 1) :=
  ⟨by decide, write_srt_lines [segCiao] (by decide)⟩

/-- C5, counterexample: for the single-segment list whose text is `"a\nb"`,
the `.txt` file contains two content lines for the one segment: its lines
are `["a", "b", ""]`, not one (stripped-text) line per segment. -/
theorem write_txt_one_line_cex :
    splitLines (write_txt [newlineSeg]).data = [['a'], ['b'], []] ∧
    splitLines (write_txt [newlineSeg]).data ≠ [(pyStrip newlineSeg.text).data, []] := by
  decide

/-- C5, amended: for every segment list in which no segment's stripped text
contains a newline character, `write_txt` produces exactly one line per
segment, in order, each line the segment's text stripped of leading and
trailing whitespace and terminated by a newline, and nothing else (the
final `[[]]` is the empty rest after the last line's newline). -/
theorem write_txt_lines (segs : List Segment)
    (h : ∀ seg ∈ segs, '\n' ∉ (pyStrip seg.text).data) :
    splitLines (write_txt segs).data
      = segs.map (fun seg => (pyStrip seg.text).data) ++ [[]] := by
  induction segs with
  | nil => rfl
  | cons seg rest ih =>
    have h1 : '\n' ∉ (pyStrip seg.text).data := h seg (List.mem_cons_self _ _)
    have h2 : ∀ g ∈ rest, '\n' ∉ (pyStrip g.text).data :=
      fun g hg => h g (List.mem_cons_of_mem _ hg)
    rw [write_txt_data, splitLines_append _ _ h1, ih h2]
    simp

/-- Witness for `write_txt_lines` on a two-segment list. -/
theorem write_txt_lines_witness :
    (∀ seg ∈ [segCiao, segMondo], '\n' ∉ (pyStrip seg.text).data) ∧
    splitLines (write_txt [segCiao, segMondo]).data
      = [segCiao, segMondo].map (fun seg => (pyStrip seg.text).data) ++ [[]] :=
  ⟨by decide, write_txt_lines [segCiao, segMondo] (by decide)⟩

/-! ## Claim theorems: probe, selection and pipeline (C6, C7, C8, C9, C10) -/

/-- C6: `check_cuda_available` never propagates an exception: whatever
exception the probed backend raises, the function returns the boolean
`false` (the model makes the exception an explicit value, and the function
is total on all probe outcomes). -/
theorem check_cuda_available_swallows_exn (msg : String) :
    check_cuda_available (ProbeResult.exn msg) = false := rfl

/-- C7: a completed run records exactly the probe-determined pair in the
metadata parameters: `("cuda", "float16")` when the probe reports
half-precision support, `("cpu", "int8")` otherwise. -/
theorem trascrivi_device_selection (env : Env) (b : ℤ) (arts : Artifacts)
    (h : trascrivi env b = Except.ok arts) :
    arts.json.parametri.device
      = (if check_cuda_available env.probe then "cuda" else "cpu") ∧
    arts.json.parametri.compute_type
      = (if check_cuda_available env.probe then "float16" else "int8") := by
  unfold trascrivi at h
  by_cases hp : env.path_exists = false
  · rw [if_pos hp] at h; exact absurd h (by simp)
  · rw [if_neg hp] at h
    by_cases hw : env.faster_whisper_installed = false
    · simp only [if_pos hw] at h; exact absurd h (by simp)
    · simp only [if_neg hw] at h
      cases hm : env.model_load with
      | error e => rw [hm] at h; exact absurd h (by simp)
      | ok u =>
        rw [hm] at h
        cases ht : env.transcribe_result with
        | error e => rw [ht] at h; exact absurd h (by simp)
        | ok p =>
          rw [ht] at h
          simp only [Except.ok.injEq] at h
          subst h
          constructor <;> rfl

/-- A run environment in which everything succeeds, the probe reports
float16 support, and the engine yields no segments. -/
def envCuda : Env :=
  { input_path := "/v/video.mp4"
    path_exists := true
    probe := .ok ["float16", "int8"]
    faster_whisper_installed := true
    model_load := .ok ()
    transcribe_result := .ok ([], { language := "it", language_probability := 1, duration := 0 })
    now_iso := "2026-01-01T00:00:00"
    processing_seconds := 1 }

/-- The artifacts `trascrivi` produces in the environment `envCuda`. -/
def artsCuda : Artifacts :=
  { txt := ""
    srt := ""
    json :=
      { file_sorgente := "/v/video.mp4"
        data_trascrizione := "2026-01-01T00:00:00"
        parametri :=
          { modello := "large-v3", device := "cuda", compute_type := "float16"
            beam_size := 5, vad_filter := true, lingua_impostata := "it" }
        info_audio :=
          { lingua_rilevata := "it", probabilita_lingua := 1, durata_totale_secondi := 0 }
        statistiche := { numero_segmenti := 0, tempo_elaborazione_secondi := 1 }
        segmenti := []
        testo_completo := "" } }

/-- Witness for `trascrivi_device_selection` in `envCuda`. -/
theorem trascrivi_device_selection_witness :
    trascrivi envCuda 5 = Except.ok artsCuda ∧
    (artsCuda.json.parametri.device
      = (if check_cuda_available envCuda.probe then "cuda" else "cpu") ∧
    artsCuda.json.parametri.compute_type
      = (if check_cuda_available envCuda.probe then "float16" else "int8")) :=
  ⟨rfl, trascrivi_device_selection envCuda 5 artsCuda rfl⟩

/-- C8: if the resolved input path does not exist, the run terminates with
exit code 1 after printing the file-not-found message, and produces no
artifacts (an `.error` result carries no artifact contents). -/
theorem trascrivi_missing_file (env : Env) (b : ℤ) (h : env.path_exists = false) :
    trascrivi env b
      = Except.error (1, ["Errore: File non trovato: " ++ env.input_path]) := by
  unfold trascrivi
  rw [if_pos h]

/-- An environment whose resolved input path does not exist. -/
def envMancante : Env := { envCuda with path_exists := false }

/-- Witness for `trascrivi_missing_file` in `envMancante`. -/
theorem trascrivi_missing_file_witness :
    envMancante.path_exists = false ∧
    trascrivi envMancante 5
      = Except.error (1, ["Errore: File non trovato: " ++ envMancante.input_path]) :=
  ⟨rfl, trascrivi_missing_file envMancante 5 rfl⟩

/-- C9: when the engine yields an empty segment sequence, the run completes
and all three artifacts are produced: the text and subtitle files have
empty content, and the metadata document records `numero_segmenti = 0` and
an empty concatenated transcript. -/
theorem trascrivi_empty_segments (env : Env) (b : ℤ) (info : TranscribeInfo)
    (h1 : env.path_exists = true) (h2 : env.faster_whisper_installed = true)
    (h3 : env.model_load = Except.ok ()) (h4 : env.transcribe_result = Except.ok ([], info)) :
    ∃ arts : Artifacts, trascrivi env b = Except.ok arts ∧
      arts.txt = "" ∧ arts.srt = "" ∧
      arts.json.statistiche.numero_segmenti = 0 ∧ arts.json.testo_completo = "" := by
  unfold trascrivi
  rw [h1, h2, h3, h4]
  simp only [Bool.true_eq_false, if_false]
  exact ⟨_, rfl, rfl, rfl, rfl, rfl⟩

/-- Witness for `trascrivi_empty_segments` in `envCuda`. -/
theorem trascrivi_empty_segments_witness :
    envCuda.path_exists = true ∧ envCuda.faster_whisper_installed = true ∧
    envCuda.model_load = Except.ok () ∧
    envCuda.transcribe_result
      = Except.ok ([], { language := "it", language_probability := 1, duration := 0 }) ∧
    (∃ arts : Artifacts, trascrivi envCuda 5 = Except.ok arts ∧
      arts.txt = "" ∧ arts.srt = "" ∧
      arts.json.statistiche.numero_segmenti = 0 ∧ arts.json.testo_completo = "") :=
  ⟨rfl, rfl, rfl, rfl, trascrivi_empty_segments envCuda 5 _ rfl rfl rfl rfl⟩

/-- The concatenation `line₁\nline₂\n…lineₙ\n` of a list of lines,
the shape of the text-file content. -/
def linesConcat : List String → String
  | [] => ""
  | x :: xs => x ++ "\n" ++ linesConcat xs

lemma write_txt_eq_linesConcat (segs : List Segment) :
    write_txt segs = linesConcat (segs.map fun seg => pyStrip seg.text) := by
  induction segs with
  | nil => rfl
  | cons seg rest ih => rw [write_txt, List.map_cons, linesConcat, ih]

lemma foldl_join_newline (xs : List String) (x : String) :
    List.foldl (fun acc y => acc ++ "\n" ++ y) x xs ++ "\n" = x ++ "\n" ++ linesConcat xs := by
  induction xs generalizing x with
  | nil =>
    rw [List.foldl_nil, linesConcat]
    rw [String.append_empty]
  | cons y ys ih =>
    rw [List.foldl_cons, ih (x ++ "\n" ++ y), linesConcat]
    simp only [String.append_assoc]

/-- On a non-empty list, the newline-join plus a trailing newline is the
newline-terminated concatenation of the lines. -/
lemma linesConcat_eq_pyJoin {l : List String} (h : l ≠ []) :
    linesConcat l = pyJoin "\n" l ++ "\n" := by
  cases l with
  | nil => exact absurd rfl h
  | cons x xs =>
    rw [pyJoin, foldl_join_newline xs x, linesConcat]

/-- C10: in every completed run, the text-file content is the metadata
field `testo_completo` (the stripped texts joined by single newlines)
followed by exactly one newline when there is at least one segment, and
both are empty when there are none. -/
theorem trascrivi_txt_vs_testo_completo (env : Env) (b : ℤ) (arts : Artifacts)
    (h : trascrivi env b = Except.ok arts) :
    (arts.json.segmenti ≠ [] → arts.txt = arts.json.testo_completo ++ "\n") ∧
    (arts.json.segmenti = [] → arts.txt = "" ∧ arts.json.testo_completo = "") := by
  unfold trascrivi at h
  by_cases hp : env.path_exists = false
  · rw [if_pos hp] at h; exact absurd h (by simp)
  · rw [if_neg hp] at h
    by_cases hw : env.faster_whisper_installed = false
    · simp only [if_pos hw] at h; exact absurd h (by simp)
    · simp only [if_neg hw] at h
      cases hm : env.model_load with
      | error e => rw [hm] at h; exact absurd h (by simp)
      | ok u =>
        rw [hm] at h
        cases ht : env.transcribe_result with
        | error e => rw [ht] at h; exact absurd h (by simp)
        | ok p =>
          rw [ht] at h
          simp only [Except.ok.injEq] at h
          subst h
          constructor
          · intro hne
            have hne' : p.1 ≠ [] := hne
            have hmap : p.1.map (fun seg => pyStrip seg.text) ≠ [] := by
              simpa using hne'
            show write_txt p.1 = pyJoin "\n" (p.1.map fun seg => pyStrip seg.text) ++ "\n"
            rw [write_txt_eq_linesConcat, linesConcat_eq_pyJoin hmap]
          · intro hnil
            have hnil' : p.1 = [] := hnil
            constructor
            · show write_txt p.1 = ""
              rw [hnil']
              rfl
            · show pyJoin "\n" (p.1.map fun seg => pyStrip seg.text) = ""
              rw [hnil']
              rfl

/-- A run environment in which the engine yields two segments. -/
def infoDue : TranscribeInfo := ⟨"it", 1, 2⟩

def envTesto : Env := { envCuda with transcribe_result := Except.ok ([segCiao, segMondo], infoDue) }

/-- The artifacts `trascrivi` produces in the environment `envTesto`. -/
def artsTesto : Artifacts :=
  { txt := "ciao\nmondo\n"
    srt := "1\n00:00:00,000 --> 00:00:01,000\nciao\n\n2\n00:00:01,000 --> 00:00:02,000\nmondo\n\n"
    json :=
      { file_sorgente := "/v/video.mp4"
        data_trascrizione := "2026-01-01T00:00:00"
        parametri :=
          { modello := "large-v3", device := "cuda", compute_type := "float16"
            beam_size := 5, vad_filter := true, lingua_impostata := "it" }
        info_audio :=
          { lingua_rilevata := "it", probabilita_lingua := 1, durata_totale_secondi := 2 }
        statistiche := { numero_segmenti := 2, tempo_elaborazione_secondi := 1 }
        segmenti := [segCiao, segMondo]
        testo_completo := "ciao\nmondo" } }

/-- Witness for `trascrivi_txt_vs_testo_completo` in `envTesto`: the run
completes, its segment list is non-empty, and the text-file content is
`testo_completo ++ "\n"`. -/
theorem trascrivi_txt_vs_testo_completo_witness :
    trascrivi envTesto 5 = Except.ok artsTesto ∧
    artsTesto.json.segmenti ≠ [] ∧
    artsTesto.txt = artsTesto.json.testo_completo ++ "\n" := by
  have h : trascrivi envTesto 5 = Except.ok artsTesto := by with_unfolding_all rfl
  exact ⟨h, by decide,
    (trascrivi_txt_vs_testo_completo envTesto 5 artsTesto h).1 (by decide)⟩
